import Mathlib

/-
Verification of the payments subsystem of the nuge-app backend
(src/api/src/payments/): the payment-intent creation flow, the Stripe
webhook verification and dispatch flow, and the reconciliation handler.

The persistent payments table is modelled as a list of rows; a committed
transaction is modelled as returning the new table, a rolled-back one as
returning the table unchanged.  Outcomes of the fallible external steps
(ORM flush, Stripe gateway call, ORM commit, webhook signature check) are
passed in explicitly, so each control path of the source is a case of the
Lean definitions.
-/

namespace Nuge

/-- Row of the payments table, from class Payment in
src/api/src/payments/models.py.  The id and created_at columns play no
role in any claim and are omitted; stripe_payment_intent_id is nullable
and carries no uniqueness constraint, exactly as in the source. -/
structure Payment where
  stripe_payment_intent_id : Option String
  amount : Int
  currency : String
  status : String
deriving Repr, DecidableEq

/-- The payments table. -/
abbrev Store := List Payment

/-- Request body, from PaymentCreate in src/api/src/payments/schemas.py.
All four fields are plain required fields with no validators. -/
structure PaymentCreate where
  amount : Int
  currency : String
  description : String
  payment_method_id : String
deriving Repr, DecidableEq

/-- Response body, from PaymentResponse in src/api/src/payments/schemas.py. -/
structure PaymentResponse where
  client_secret : String
deriving Repr, DecidableEq

/-- The exception classes the try block of create_payment_intent can see:
stripe.StripeError (carrying a user_message), sqlalchemy SQLAlchemyError,
and any other Exception. -/
inductive Exc where
  | stripeExc (user_message : String)
  | sqlExc (msg : String)
  | otherExc (msg : String)
deriving Repr, DecidableEq

/-- The taxonomy raised by the service, from
src/api/src/payments/exceptions.py. -/
inductive PaymentError where
  | StripePaymentError (message : String)
  | DatabaseOperationError (message : String)
  | UnexpectedError (message : String)
deriving Repr, DecidableEq

/-- The fields of a stripe.PaymentIntent that create_payment_intent reads:
intent["id"], intent["status"], intent["client_secret"]. -/
structure GatewayIntent where
  id : String
  status : String
  client_secret : String
deriving Repr, DecidableEq

/-- Outcomes of the three fallible steps inside the try block of
create_payment_intent, in source order: self.db.flush(),
stripe.PaymentIntent.create(...), self.db.commit().  none / .ok means the
step returns normally; some e / .error e means it raises e. -/
structure Env where
  flushResult : Option Exc
  gatewayResult : Except Exc GatewayIntent
  commitResult : Option Exc

/-- The except clauses of create_payment_intent
(src/api/src/payments/service.py, lines 52-62): StripeError is re-raised
as StripePaymentError carrying the user-facing message, SQLAlchemyError
as DatabaseOperationError, anything else as UnexpectedError. -/
def excToError : Exc → PaymentError
  | .stripeExc m => .StripePaymentError ("Stripe error: " ++ m)
  | .sqlExc m => .DatabaseOperationError ("Database operation failed: " ++ m)
  | .otherExc m => .UnexpectedError ("Unexpected error: " ++ m)

/-- The row inserted before the gateway call:
Payment(amount=data.amount, currency=data.currency, status="pending")
(src/api/src/payments/service.py, lines 22-27). -/
def initialPayment (data : PaymentCreate) : Payment :=
  { stripe_payment_intent_id := none
    amount := data.amount
    currency := data.currency
    status := "pending" }

/-- PaymentService.create_payment_intent (src/api/src/payments/service.py).
Inside a transaction: insert the pending row, flush, call the gateway,
write the gateway id and status onto the row, commit, return the client
secret.  On any exception: roll back (the table is unchanged) and raise
the mapped taxonomy error.  The returned pair is (table after the call,
result). -/
def create_payment_intent (env : Env) (data : PaymentCreate) (store : Store) :
    Store × Except PaymentError PaymentResponse :=
  match env.flushResult with
  | some e => (store, .error (excToError e))
  | none =>
    match env.gatewayResult with
    | .error e => (store, .error (excToError e))
    | .ok intent =>
      match env.commitResult with
      | some e => (store, .error (excToError e))
      | none =>
        (store ++ [{ initialPayment data with
                      stripe_payment_intent_id := some intent.id
                      status := intent.status }],
         .ok { client_secret := intent.client_secret })

/-- The fields handle_payment_succeeded reads from event["data"]["object"]:
the intent id, amount and currency
(src/api/src/payments/webhook_utils.py). -/
structure PaymentIntentEvent where
  id : String
  amount : Int
  currency : String
deriving Repr, DecidableEq

/-- The database exception the lookup can raise:
result.scalar_one_or_none() raises MultipleResultsFound when the select
returns more than one row. -/
inductive DbExc where
  | multipleResultsFound
deriving Repr, DecidableEq

/-- The rows selected by
select(Payment).where(Payment.stripe_payment_intent_id == payment_intent_id). -/
def matching (pid : String) (store : Store) : List Payment :=
  store.filter (fun p => p.stripe_payment_intent_id == some pid)

/-- Semantics of result.scalar_one_or_none(): none for zero rows, the row
for one row, MultipleResultsFound for more. -/
def scalar_one_or_none (rows : List Payment) : Except DbExc (Option Payment) :=
  match rows with
  | [] => .ok none
  | [p] => .ok (some p)
  | _ :: _ :: _ => .error .multipleResultsFound

/-- The row inserted by the else branch of handle_payment_succeeded:
Payment(stripe_payment_intent_id=..., amount=..., currency=...,
status="succeeded"). -/
def webhookPayment (ev : PaymentIntentEvent) : Payment :=
  { stripe_payment_intent_id := some ev.id
    amount := ev.amount
    currency := ev.currency
    status := "succeeded" }

/-- The update applied when a row is found: payment.status = "succeeded"
on the row fetched by the select, i.e. on the rows whose
stripe_payment_intent_id matches the event id. -/
def succeedMatching (pid : String) (store : Store) : Store :=
  store.map (fun p =>
    if p.stripe_payment_intent_id == some pid
    then { p with status := "succeeded" } else p)

/-- handle_payment_succeeded (src/api/src/payments/webhook_utils.py): look
the intent id up; if a row is found set its status to succeeded, else
insert a fresh succeeded row; commit.  A lookup exception propagates and
nothing is committed. -/
def handle_payment_succeeded (ev : PaymentIntentEvent) (store : Store) :
    Except DbExc Store :=
  match scalar_one_or_none (matching ev.id store) with
  | .error e => .error e
  | .ok (some _) => .ok (succeedMatching ev.id store)
  | .ok none => .ok (store ++ [webhookPayment ev])

/-- The event envelope consume_webhook reads: event["type"] and, for
payment_intent.succeeded events, event["data"]["object"]. -/
structure Event where
  type : String
  data_object : PaymentIntentEvent
deriving Repr, DecidableEq

/-- Outcomes of stripe.Webhook.construct_event: it returns the parsed
event, or raises a StripeError (in particular
SignatureVerificationError), or raises some other exception (for example
a ValueError on an unparsable payload). -/
inductive ConstructExc where
  | stripeError
  | otherError (msg : String)
deriving Repr, DecidableEq

/-- The fastapi.HTTPException raised by the webhook service. -/
structure HTTPException where
  status_code : Nat
  detail : String
deriving Repr, DecidableEq

/-- The str() of the database exception, as interpolated into the generic
400 detail by consume_webhook. -/
def dbExcMessage : DbExc → String
  | .multipleResultsFound =>
      "Multiple rows were found when one or none was required"

/-- WebhookService.consume_webhook
(src/api/src/payments/webhook_service.py): construct the event from the
raw payload and signature header; dispatch payment_intent.succeeded to
handle_payment_succeeded; any other event type is a no-op.  A StripeError
becomes HTTP 400 signature-verification-failed; any other exception
becomes a generic HTTP 400.  The pair is (table after the call, result).
The construct_event outcome is passed in as a parameter. -/
def consume_webhook (constructResult : Except ConstructExc Event)
    (store : Store) : Store × Except HTTPException Unit :=
  match constructResult with
  | .error .stripeError =>
      (store, .error ⟨400, "Webhook signature verification failed"⟩)
  | .error (.otherError m) =>
      (store, .error ⟨400, "Webhook error: " ++ m⟩)
  | .ok event =>
    if event.type == "payment_intent.succeeded" then
      match handle_payment_succeeded event.data_object store with
      | .ok store2 => (store2, .ok ())
      | .error e => (store, .error ⟨400, "Webhook error: " ++ dbExcMessage e⟩)
    else
      (store, .ok ())

/-- What the route handler stripe_webhook can raise: an uncaught KeyError
from the direct header indexing, or the HTTPException propagated from the
webhook service. -/
inductive RouteErr where
  | keyError (key : String)
  | http (e : HTTPException)
deriving Repr, DecidableEq

/-- Semantics of request.headers[key] lookup: Starlette headers are
case-insensitive; a missing key raises KeyError, modelled as none. -/
def headersGet (hs : List (String × String)) (key : String) : Option String :=
  (hs.find? (fun kv => kv.fst.toLower == key.toLower)).map (fun kv => kv.snd)

/-- The stripe_webhook route handler (src/api/src/payments/router.py):
payload = await request.body(); sig_header =
request.headers["Stripe-Signature"] (a direct indexing, outside any try);
then consume_webhook(payload, sig_header, session).  The construct_event
function of the Stripe SDK is passed in as a parameter taking the payload
and the signature header. -/
def stripe_webhook (constructEvent : String → String → Except ConstructExc Event)
    (headers : List (String × String)) (payload : String) (store : Store) :
    Store × Except RouteErr Unit :=
  match headersGet headers "Stripe-Signature" with
  | none => (store, .error (.keyError "Stripe-Signature"))
  | some sig =>
      match consume_webhook (constructEvent payload sig) store with
      | (store2, .ok u) => (store2, .ok u)
      | (store2, .error e) => (store2, .error (.http e))

/-! ## Unfolding lemmas for create_payment_intent -/

theorem create_flush_raises (env : Env) (data : PaymentCreate) (store : Store)
    (e : Exc) (h : env.flushResult = some e) :
    create_payment_intent env data store = (store, .error (excToError e)) := by
  simp [create_payment_intent, h]

theorem create_gateway_raises (env : Env) (data : PaymentCreate) (store : Store)
    (e : Exc) (hf : env.flushResult = none) (hg : env.gatewayResult = .error e) :
    create_payment_intent env data store = (store, .error (excToError e)) := by
  simp [create_payment_intent, hf, hg]

theorem create_commit_raises (env : Env) (data : PaymentCreate) (store : Store)
    (g : GatewayIntent) (e : Exc) (hf : env.flushResult = none)
    (hg : env.gatewayResult = .ok g) (hc : env.commitResult = some e) :
    create_payment_intent env data store = (store, .error (excToError e)) := by
  simp [create_payment_intent, hf, hg, hc]

theorem create_ok (env : Env) (data : PaymentCreate) (store : Store)
    (g : GatewayIntent) (hf : env.flushResult = none)
    (hg : env.gatewayResult = .ok g) (hc : env.commitResult = none) :
    create_payment_intent env data store =
      (store ++ [{ stripe_payment_intent_id := some g.id
                   amount := data.amount
                   currency := data.currency
                   status := g.status }],
       .ok { client_secret := g.client_secret }) := by
  simp [create_payment_intent, hf, hg, hc, initialPayment]

/-! ## Lemmas about matching and succeedMatching -/

theorem matching_append (pid : String) (s t : Store) :
    matching pid (s ++ t) = matching pid s ++ matching pid t := by
  simp [matching, List.filter_append]

theorem matching_webhookPayment (ev : PaymentIntentEvent) :
    matching ev.id [webhookPayment ev] = [webhookPayment ev] := by
  simp [matching, webhookPayment]

theorem matching_single_match (pid : String) (p : Payment)
    (h : p.stripe_payment_intent_id = some pid) : matching pid [p] = [p] := by
  simp [matching, h]

theorem mem_matching (pid : String) (store : Store) (p : Payment)
    (hin : p ∈ store) (hmatch : p.stripe_payment_intent_id = some pid) :
    p ∈ matching pid store := by
  simp [matching, List.mem_filter, hin, hmatch]

theorem matching_succeedMatching (pid : String) (s : Store) :
    matching pid (succeedMatching pid s) = (matching pid s).map
      (fun p => { p with status := "succeeded" }) := by
  induction s with
  | nil => rfl
  | cons p s ih =>
    by_cases h : p.stripe_payment_intent_id = some pid
    · simp only [matching, succeedMatching, List.filter_cons, List.map_cons] at ih ⊢
      simpa [h] using ih
    · simp only [matching, succeedMatching, List.filter_cons, List.map_cons] at ih ⊢
      simpa [h] using ih

theorem succeedMatching_already (pid : String) (s : Store)
    (h : ∀ p ∈ s, p.stripe_payment_intent_id = some pid → p.status = "succeeded") :
    succeedMatching pid s = s := by
  induction s with
  | nil => rfl
  | cons p s ih =>
    have hs : succeedMatching pid s = s :=
      ih (fun q hq hq2 => h q (List.mem_cons_of_mem p hq) hq2)
    simp only [succeedMatching, List.map_cons] at hs ⊢
    rw [hs]
    by_cases hp : p.stripe_payment_intent_id = some pid
    · have hst : p.status = "succeeded" := h p (List.mem_cons_self p s) hp
      have hb : (p.stripe_payment_intent_id == some pid) = true := by simp [hp]
      rw [if_pos hb]
      have hrec : ({ p with status := "succeeded" } : Payment) = p := by
        cases p
        simp_all
      rw [hrec]
    · have hb : ¬ ((p.stripe_payment_intent_id == some pid) = true) := by
        simpa using hp
      rw [if_neg hb]

theorem succeedMatching_idem (pid : String) (s : Store) :
    succeedMatching pid (succeedMatching pid s) = succeedMatching pid s := by
  apply succeedMatching_already
  intro p hp hmatch
  simp only [succeedMatching, List.mem_map] at hp
  obtain ⟨q, hq, rfl⟩ := hp
  by_cases h : q.stripe_payment_intent_id = some pid
  · simp [h]
  · simp [h] at hmatch

theorem handle_eq_of_matching_nil (ev : PaymentIntentEvent) (store : Store)
    (h : matching ev.id store = []) :
    handle_payment_succeeded ev store = .ok (store ++ [webhookPayment ev]) := by
  simp [handle_payment_succeeded, h, scalar_one_or_none]

theorem handle_eq_of_matching_one (ev : PaymentIntentEvent) (store : Store)
    (q : Payment) (h : matching ev.id store = [q]) :
    handle_payment_succeeded ev store = .ok (succeedMatching ev.id store) := by
  simp [handle_payment_succeeded, h, scalar_one_or_none]

/-! ## The claims -/

/-- Claim C2: whenever the gateway call fails inside create_payment_intent,
the transaction is rolled back (the table is unchanged) and a
StripePaymentError carrying the gateway user-facing message is raised; a
persistence (SQLAlchemy) error at the flush or at the commit likewise
rolls back and raises DatabaseOperationError; any other exception rolls
back and raises UnexpectedError. -/
theorem C2_failure_rolls_back (env : Env) (data : PaymentCreate) (store : Store) :
    (∀ m, env.flushResult = none → env.gatewayResult = .error (.stripeExc m) →
      create_payment_intent env data store =
        (store, .error (.StripePaymentError ("Stripe error: " ++ m)))) ∧
    (∀ m, env.flushResult = some (.sqlExc m) →
      create_payment_intent env data store =
        (store, .error (.DatabaseOperationError ("Database operation failed: " ++ m)))) ∧
    (∀ g m, env.flushResult = none → env.gatewayResult = .ok g →
      env.commitResult = some (.sqlExc m) →
      create_payment_intent env data store =
        (store, .error (.DatabaseOperationError ("Database operation failed: " ++ m)))) ∧
    (∀ m, env.flushResult = some (.otherExc m) →
      create_payment_intent env data store =
        (store, .error (.UnexpectedError ("Unexpected error: " ++ m)))) := by
  refine ⟨fun m hf hg => ?_, fun m hf => ?_, fun g m hf hg hc => ?_, fun m hf => ?_⟩
  · simpa [excToError] using create_gateway_raises env data store _ hf hg
  · simpa [excToError] using create_flush_raises env data store _ hf
  · simpa [excToError] using create_commit_raises env data store g _ hf hg hc
  · simpa [excToError] using create_flush_raises env data store _ hf

/-- Witness for C2 at a concrete input: a declined-card gateway error on an
empty table rolls back and surfaces the user message. -/
theorem C2_failure_rolls_back_witness :
    create_payment_intent
        ⟨none, .error (.stripeExc "Your card was declined."), none⟩
        ⟨500, "usd", "order", "pm_1"⟩ [] =
      ([], .error (.StripePaymentError ("Stripe error: " ++ "Your card was declined."))) :=
  (C2_failure_rolls_back ⟨none, .error (.stripeExc "Your card was declined."), none⟩
      ⟨500, "usd", "order", "pm_1"⟩ []).1 "Your card was declined." rfl rfl

/-- Claim C3: when the insert, the gateway call and the commit all succeed,
create_payment_intent leaves exactly one new row, whose
stripe_payment_intent_id and status come from the gateway response, and
returns the gateway client secret. -/
theorem C3_success_commits (env : Env) (data : PaymentCreate) (store : Store)
    (g : GatewayIntent) (hf : env.flushResult = none)
    (hg : env.gatewayResult = .ok g) (hc : env.commitResult = none) :
    create_payment_intent env data store =
      (store ++ [{ stripe_payment_intent_id := some g.id
                   amount := data.amount
                   currency := data.currency
                   status := g.status }],
       .ok { client_secret := g.client_secret }) ∧
    (create_payment_intent env data store).1.length = store.length + 1 := by
  have h := create_ok env data store g hf hg hc
  exact ⟨h, by simp [h]⟩

/-- Witness for C3 at a concrete input, the scenario of spec section 8:
amount 500 usd, gateway returns id pi_123 and status succeeded. -/
theorem C3_success_commits_witness :
    create_payment_intent
        ⟨none, .ok ⟨"pi_123", "succeeded", "cs_123"⟩, none⟩
        ⟨500, "usd", "order", "pm_1"⟩ [] =
      ([{ stripe_payment_intent_id := some "pi_123"
          amount := 500
          currency := "usd"
          status := "succeeded" }],
       .ok { client_secret := "cs_123" }) ∧
    (create_payment_intent
        ⟨none, .ok ⟨"pi_123", "succeeded", "cs_123"⟩, none⟩
        ⟨500, "usd", "order", "pm_1"⟩ []).1.length = 0 + 1 :=
  C3_success_commits ⟨none, .ok ⟨"pi_123", "succeeded", "cs_123"⟩, none⟩
    ⟨500, "usd", "order", "pm_1"⟩ [] ⟨"pi_123", "succeeded", "cs_123"⟩ rfl rfl rfl

/-- Claim C4: handle_payment_succeeded is an idempotent upsert keyed by the
external intent id.  On a table with at most one row for the event id: if
no row matches, it inserts the fresh succeeded row built from the event;
if a row matches, it sets that row status to succeeded without error;
afterwards exactly one row matches the event id, that row status is
succeeded, and delivering the same event again returns the same table
unchanged. -/
theorem C4_idempotent_upsert (ev : PaymentIntentEvent) (store : Store)
    (h : (matching ev.id store).length ≤ 1) :
    ∃ s2, handle_payment_succeeded ev store = .ok s2 ∧
      (matching ev.id store = [] → s2 = store ++ [webhookPayment ev]) ∧
      (matching ev.id store ≠ [] → s2 = succeedMatching ev.id store) ∧
      (matching ev.id s2).length = 1 ∧
      (∀ p ∈ matching ev.id s2, p.status = "succeeded") ∧
      handle_payment_succeeded ev s2 = .ok s2 := by
  cases hm : matching ev.id store with
  | nil =>
    have h2 : matching ev.id (store ++ [webhookPayment ev]) = [webhookPayment ev] := by
      rw [matching_append, hm, matching_webhookPayment, List.nil_append]
    refine ⟨store ++ [webhookPayment ev], handle_eq_of_matching_nil ev store hm,
      fun _ => rfl, fun hc => absurd rfl hc, by rw [h2]; rfl, ?_, ?_⟩
    · intro p hp
      rw [h2] at hp
      simp only [List.mem_singleton] at hp
      rw [hp]
      rfl
    · rw [handle_eq_of_matching_one ev _ (webhookPayment ev) h2]
      have heq : succeedMatching ev.id (store ++ [webhookPayment ev]) =
          store ++ [webhookPayment ev] := by
        apply succeedMatching_already
        intro p hp hmatch
        rcases List.mem_append.mp hp with hin | hin
        · exact absurd (hm ▸ mem_matching ev.id store p hin hmatch)
            (List.not_mem_nil p)
        · simp only [List.mem_singleton] at hin
          rw [hin]
          rfl
      rw [heq]
  | cons q qs =>
    have hqs : qs = [] := by
      have hl := h
      rw [hm] at hl
      simpa using hl
    subst hqs
    have h2 : matching ev.id (succeedMatching ev.id store) =
        [{ q with status := "succeeded" }] := by
      rw [matching_succeedMatching, hm]
      rfl
    refine ⟨succeedMatching ev.id store, handle_eq_of_matching_one ev store q hm,
      fun hc => absurd hc (List.cons_ne_nil q []),
      fun _ => rfl, by rw [h2]; rfl, ?_, ?_⟩
    · intro p hp
      rw [h2] at hp
      simp only [List.mem_singleton] at hp
      rw [hp]
    · rw [handle_eq_of_matching_one ev _ { q with status := "succeeded" } h2,
        succeedMatching_idem]

/-- Witness for C4 at a concrete input: delivering the pi_123 event to an
empty table inserts the succeeded row, and redelivery changes nothing. -/
theorem C4_idempotent_upsert_witness :
    (matching "pi_123" ([] : Store)).length ≤ 1 ∧
    ∃ s2, handle_payment_succeeded ⟨"pi_123", 500, "usd"⟩ [] = .ok s2 ∧
      (matching "pi_123" ([] : Store) = [] →
        s2 = [] ++ [webhookPayment ⟨"pi_123", 500, "usd"⟩]) ∧
      (matching "pi_123" ([] : Store) ≠ [] → s2 = succeedMatching "pi_123" []) ∧
      (matching "pi_123" s2).length = 1 ∧
      (∀ p ∈ matching "pi_123" s2, p.status = "succeeded") ∧
      handle_payment_succeeded ⟨"pi_123", 500, "usd"⟩ s2 = .ok s2 :=
  ⟨by decide, C4_idempotent_upsert ⟨"pi_123", 500, "usd"⟩ [] (by decide)⟩

/-- Claim C8 (amended): the row the Initiator constructs at creation time
has status pending and no external intent id, but the webhook path
constructs its row with status succeeded and the external intent id
already set. -/
theorem C8_creation_fields (data : PaymentCreate) (ev : PaymentIntentEvent) :
    (initialPayment data).status = "pending" ∧
    (initialPayment data).stripe_payment_intent_id = none ∧
    (webhookPayment ev).status = "succeeded" ∧
    (webhookPayment ev).stripe_payment_intent_id = some ev.id :=
  ⟨rfl, rfl, rfl, rfl⟩

/-- Counterexample to C8 as stated: the webhook write path creates a row
whose status is succeeded, not pending, and whose external intent id is
already set. -/
theorem C8_counterexample :
    handle_payment_succeeded ⟨"pi_123", 500, "usd"⟩ [] =
      .ok [webhookPayment ⟨"pi_123", 500, "usd"⟩] ∧
    (webhookPayment ⟨"pi_123", 500, "usd"⟩).status ≠ "pending" ∧
    (webhookPayment ⟨"pi_123", 500, "usd"⟩).stripe_payment_intent_id ≠ none :=
  ⟨rfl, by decide, by decide⟩

/-- Claim C9: when a row matching the event id is found,
handle_payment_succeeded overwrites its status to succeeded
unconditionally, whatever the prior status was (no monotonicity guard):
the matched row q is arbitrary, and the resulting matched row is q with
status succeeded. -/
theorem C9_unconditional_overwrite (ev : PaymentIntentEvent) (store : Store)
    (q : Payment) (h : matching ev.id store = [q]) :
    handle_payment_succeeded ev store = .ok (succeedMatching ev.id store) ∧
    matching ev.id (succeedMatching ev.id store) =
      [{ q with status := "succeeded" }] :=
  ⟨handle_eq_of_matching_one ev store q h,
   by rw [matching_succeedMatching, h]; rfl⟩

/-- Witness for C9 at a concrete input: a row whose status is failed is
overwritten to succeeded. -/
theorem C9_unconditional_overwrite_witness :
    matching "pi_9" [(⟨some "pi_9", 250, "eur", "failed"⟩ : Payment)] =
      [(⟨some "pi_9", 250, "eur", "failed"⟩ : Payment)] ∧
    (handle_payment_succeeded ⟨"pi_9", 250, "eur"⟩
        [(⟨some "pi_9", 250, "eur", "failed"⟩ : Payment)] =
      .ok (succeedMatching "pi_9" [(⟨some "pi_9", 250, "eur", "failed"⟩ : Payment)]) ∧
     matching "pi_9" (succeedMatching "pi_9"
        [(⟨some "pi_9", 250, "eur", "failed"⟩ : Payment)]) =
      [(⟨some "pi_9", 250, "eur", "succeeded"⟩ : Payment)]) :=
  ⟨by decide, C9_unconditional_overwrite ⟨"pi_9", 250, "eur"⟩
    [(⟨some "pi_9", 250, "eur", "failed"⟩ : Payment)]
    (⟨some "pi_9", 250, "eur", "failed"⟩ : Payment) (by decide)⟩

/-- Claim C5: when signature verification of the raw payload fails,
consume_webhook surfaces HTTP 400 with the signature-failure detail and
leaves the table unmutated; and every error consume_webhook can surface,
for any construct outcome and any dispatch outcome, is a 400-class
HTTPException, never a 5xx. -/
theorem C5_webhook_400_errors (store : Store) :
    consume_webhook (.error .stripeError) store =
      (store, .error ⟨400, "Webhook signature verification failed"⟩) ∧
    (∀ ce : ConstructExc, (consume_webhook (.error ce) store).1 = store) ∧
    (∀ cr : Except ConstructExc Event,
      (consume_webhook cr store).2 = .ok () ∨
      ∃ d, consume_webhook cr store = (store, .error ⟨400, d⟩)) := by
  refine ⟨rfl, fun ce => ?_, fun cr => ?_⟩
  · cases ce with
    | stripeError => rfl
    | otherError m => rfl
  · rcases cr with ce | ev
    · cases ce with
      | stripeError => exact .inr ⟨"Webhook signature verification failed", rfl⟩
      | otherError m => exact .inr ⟨"Webhook error: " ++ m, rfl⟩
    · by_cases ht : ev.type = "payment_intent.succeeded"
      · cases hh : handle_payment_succeeded ev.data_object store with
        | ok s2 =>
          left
          simp [consume_webhook, ht, hh]
        | error e2 =>
          right
          exact ⟨"Webhook error: " ++ dbExcMessage e2, by simp [consume_webhook, ht, hh]⟩
      · left
        simp [consume_webhook, ht]

/-- Claim C6: a validly-signed event whose type is not
payment_intent.succeeded is a no-op: consume_webhook returns success and
the table is unchanged. -/
theorem C6_unknown_event_noop (ev : Event) (store : Store)
    (h : ev.type ≠ "payment_intent.succeeded") :
    consume_webhook (.ok ev) store = (store, .ok ()) := by
  simp [consume_webhook, h]

/-- Witness for C6 at a concrete input: a charge.refunded event is ignored
without error. -/
theorem C6_unknown_event_noop_witness :
    (Event.mk "charge.refunded" ⟨"pi_1", 100, "usd"⟩).type ≠
      "payment_intent.succeeded" ∧
    consume_webhook (.ok (Event.mk "charge.refunded" ⟨"pi_1", 100, "usd"⟩)) [] =
      ([], .ok ()) :=
  ⟨by decide, C6_unknown_event_noop (Event.mk "charge.refunded" ⟨"pi_1", 100, "usd"⟩)
    [] (by decide)⟩

/-- Claim C10: a webhook request with no Stripe-Signature header makes the
route handler raise an uncaught KeyError from the direct header indexing,
for every possible signature-verification function (so before any
verification or store access), leaving the table unmutated; the KeyError
is not the 400-class HTTPException response. -/
theorem C10_missing_header_keyerror
    (constructEvent : String → String → Except ConstructExc Event)
    (headers : List (String × String)) (payload : String) (store : Store)
    (h : headersGet headers "Stripe-Signature" = none) :
    stripe_webhook constructEvent headers payload store =
      (store, .error (.keyError "Stripe-Signature")) ∧
    (∀ e : HTTPException, RouteErr.keyError "Stripe-Signature" ≠ RouteErr.http e) := by
  refine ⟨by simp [stripe_webhook, h], fun e h2 => by cases h2⟩

/-- Witness for C10 at a concrete input: an empty header list, with a
verifier that would reject the signature, still produces the KeyError and
no table change. -/
theorem C10_missing_header_keyerror_witness :
    headersGet [] "Stripe-Signature" = none ∧
    (stripe_webhook (fun _ _ => .error .stripeError) [] "payload" [] =
      ([], .error (.keyError "Stripe-Signature")) ∧
     (∀ e : HTTPException, RouteErr.keyError "Stripe-Signature" ≠ RouteErr.http e)) :=
  ⟨rfl, C10_missing_header_keyerror (fun _ _ => .error .stripeError) [] "payload" [] rfl⟩

/-- Claim C7 (amended): create_payment_intent applies no validation to
amount or currency: a request with non-positive amount or empty currency
is not rejected, it proceeds to insert the row and call the gateway
exactly like a valid request, committing the row on gateway success. -/
theorem C7_no_input_validation (env : Env) (data : PaymentCreate) (store : Store)
    (g : GatewayIntent) (_hbad : data.amount ≤ 0 ∨ data.currency = "")
    (hf : env.flushResult = none) (hg : env.gatewayResult = .ok g)
    (hc : env.commitResult = none) :
    create_payment_intent env data store =
      (store ++ [{ stripe_payment_intent_id := some g.id
                   amount := data.amount
                   currency := data.currency
                   status := g.status }],
       .ok { client_secret := g.client_secret }) :=
  create_ok env data store g hf hg hc

/-- Witness for C7 (amended) at a concrete input: amount 0 and empty
currency go through and the row is committed. -/
theorem C7_no_input_validation_witness :
    ((0 : Int) ≤ 0 ∨ ("" : String) = "") ∧
    create_payment_intent ⟨none, .ok ⟨"pi_1", "succeeded", "cs_1"⟩, none⟩
        ⟨0, "", "order", "pm_1"⟩ [] =
      ([{ stripe_payment_intent_id := some "pi_1"
          amount := 0
          currency := ""
          status := "succeeded" }],
       .ok { client_secret := "cs_1" }) :=
  ⟨by decide, C7_no_input_validation ⟨none, .ok ⟨"pi_1", "succeeded", "cs_1"⟩, none⟩
    ⟨0, "", "order", "pm_1"⟩ [] ⟨"pi_1", "succeeded", "cs_1"⟩ (by decide) rfl rfl rfl⟩

/-- Counterexample to C7 as stated: a request with amount 0 and empty
currency is not rejected: the table gains a row and the call returns the
client secret. -/
theorem C7_counterexample :
    (create_payment_intent ⟨none, .ok ⟨"pi_1", "succeeded", "cs_1"⟩, none⟩
        ⟨0, "", "order", "pm_1"⟩ []).1 ≠ [] ∧
    (create_payment_intent ⟨none, .ok ⟨"pi_1", "succeeded", "cs_1"⟩, none⟩
        ⟨0, "", "order", "pm_1"⟩ []).2 = .ok ⟨"cs_1"⟩ :=
  ⟨by decide, rfl⟩

/-- Claim C1 (amended): when the Initiator completes first and the webhook
for the same intent id runs second, the table converges to a single row
for that id, with status succeeded and the request amount and currency;
but in the opposite order the Initiator blindly appends a second row
(there is no lookup-before-insert on its path and no uniqueness
constraint at the store), so the table ends with two rows for the same
external intent id. -/
theorem C1_order_dependent_convergence (env : Env) (data : PaymentCreate)
    (store : Store) (g : GatewayIntent) (eid : String) (ea : Int) (ec : String)
    (hf : env.flushResult = none) (hg : env.gatewayResult = .ok g)
    (hc : env.commitResult = none) (hev : eid = g.id)
    (h0 : matching g.id store = []) :
    (∃ s2, handle_payment_succeeded ⟨eid, ea, ec⟩
        (create_payment_intent env data store).1 = .ok s2 ∧
      matching g.id s2 =
        [{ stripe_payment_intent_id := some g.id
           amount := data.amount
           currency := data.currency
           status := "succeeded" }]) ∧
    (∃ s1, handle_payment_succeeded ⟨eid, ea, ec⟩ store = .ok s1 ∧
      (matching g.id (create_payment_intent env data s1).1).length = 2) := by
  subst hev
  have hcreate := create_ok env data store g hf hg hc
  constructor
  · have hm1 : matching g.id (store ++
        [({ stripe_payment_intent_id := some g.id
            amount := data.amount
            currency := data.currency
            status := g.status } : Payment)]) =
        [({ stripe_payment_intent_id := some g.id
            amount := data.amount
            currency := data.currency
            status := g.status } : Payment)] := by
      rw [matching_append, h0, matching_single_match g.id _ rfl, List.nil_append]
    refine ⟨succeedMatching g.id (store ++
        [({ stripe_payment_intent_id := some g.id
            amount := data.amount
            currency := data.currency
            status := g.status } : Payment)]), ?_, ?_⟩
    · rw [hcreate]
      exact handle_eq_of_matching_one ⟨g.id, ea, ec⟩ _ _ hm1
    · rw [matching_succeedMatching, hm1]
      rfl
  · refine ⟨store ++ [webhookPayment ⟨g.id, ea, ec⟩],
      handle_eq_of_matching_nil ⟨g.id, ea, ec⟩ store h0, ?_⟩
    rw [create_ok env data _ g hf hg hc, matching_append, matching_append, h0,
      matching_single_match g.id (webhookPayment ⟨g.id, ea, ec⟩) rfl,
      matching_single_match g.id _ rfl]
    rfl

/-- Witness for C1 (amended) at a concrete input: intent pi_1, amount 500
usd, both orders played out on an empty table. -/
theorem C1_order_dependent_convergence_witness :
    (("pi_1" : String) = "pi_1" ∧ matching "pi_1" ([] : Store) = []) ∧
    ((∃ s2, handle_payment_succeeded ⟨"pi_1", 500, "usd"⟩
        (create_payment_intent ⟨none, .ok ⟨"pi_1", "succeeded", "cs_1"⟩, none⟩
          ⟨500, "usd", "order", "pm_1"⟩ []).1 = .ok s2 ∧
      matching "pi_1" s2 =
        [{ stripe_payment_intent_id := some "pi_1"
           amount := 500
           currency := "usd"
           status := "succeeded" }]) ∧
    (∃ s1, handle_payment_succeeded ⟨"pi_1", 500, "usd"⟩ [] = .ok s1 ∧
      (matching "pi_1" (create_payment_intent
          ⟨none, .ok ⟨"pi_1", "succeeded", "cs_1"⟩, none⟩
          ⟨500, "usd", "order", "pm_1"⟩ s1).1).length = 2)) :=
  ⟨⟨rfl, by decide⟩,
   C1_order_dependent_convergence ⟨none, .ok ⟨"pi_1", "succeeded", "cs_1"⟩, none⟩
     ⟨500, "usd", "order", "pm_1"⟩ [] ⟨"pi_1", "succeeded", "cs_1"⟩
     "pi_1" 500 "usd" rfl rfl rfl rfl (by decide)⟩

/-- Counterexample to C1 as stated: deliver the succeeded webhook for pi_1
to an empty table first (it inserts a row for pi_1), then let the
Initiator complete for the same intent id: the table ends with two rows
whose external intent id is pi_1, not one. -/
theorem C1_counterexample :
    handle_payment_succeeded ⟨"pi_1", 500, "usd"⟩ [] =
      .ok [webhookPayment ⟨"pi_1", 500, "usd"⟩] ∧
    (matching "pi_1"
      ((create_payment_intent ⟨none, .ok ⟨"pi_1", "succeeded", "cs_1"⟩, none⟩
          ⟨500, "usd", "order", "pm_1"⟩
          [webhookPayment ⟨"pi_1", 500, "usd"⟩]).1)).length = 2 :=
  ⟨rfl, by decide⟩

end Nuge
